import Mathlib

/-!
Verification of the HyperLoop suite (7hr08ik/Freqtrade_HyperLoop).

Shallow embedding of the two risk-bearing parts of the program:

* the result extraction pipeline of `HyperLoop/scripts/DataHandling.py`
  (`extract_data`, `parse_log_file`, `parse_result_data` and the max-drawdown
  recovery code inlined in `parse_log_file`), and
* the leaderboard (`update_top_results`, `add_result`, `record_failure`,
  `load_data`, `clean_data_file`) together with the campaign driver
  `HyperLoop.run_loop` of `HyperLoop/scripts/HyperLoop.py` and the artifact
  polling of `wait_for_hyperopt_completion`.

Modelling conventions:

* A log text is represented by its list of lines, exactly the value of
  Python's `content.split("\n")`; the original text is recovered as
  `String.intercalate "\n" lines` (these are exact inverses), which is used
  wherever the source applies a regex to the whole `content` string.
* Python float values are modelled as rationals `ℚ`; every float in this
  program is produced by `float()` on a decimal-literal capture or by exact
  arithmetic on such values, and the properties checked here depend only on
  the ordering of those values, never on binary rounding.
* The regexes used by the source are implemented as deterministic matchers
  over `List Char`.  Each of the concrete patterns in the source is
  backtracking-free (every quantified character class is disjoint from the
  character that follows it, and `\s*[:\s]+` collapses to `[:\s]+` because
  `\s ⊆ [:\s]`), so a greedy longest-run matcher tried at every start
  position, leftmost first, reproduces `re.search` exactly.  Character
  classes `\d` and `\s` are modelled by their ASCII members, which is what
  the optimizer's log contains.
* `dict` values with a fixed key set become structures with `Option` fields
  (a missing key is `none`); fallible Python code returns `Except`/`Option`.
-/

namespace HyperLoop

instance {ε α : Type} [DecidableEq ε] [DecidableEq α] : DecidableEq (Except ε α) := fun x y =>
  match x, y with
  | .error a, .error b =>
    if h : a = b then .isTrue (congrArg Except.error h)
    else .isFalse fun hc => h (by cases hc; rfl)
  | .ok a, .ok b =>
    if h : a = b then .isTrue (congrArg Except.ok h)
    else .isFalse fun hc => h (by cases hc; rfl)
  | .error _, .ok _ => .isFalse fun hc => by cases hc
  | .ok _, .error _ => .isFalse fun hc => by cases hc

/-- Python's `\s` class restricted to ASCII: the six whitespace characters
matched by `str` regexes on ASCII text. -/
def isPySpace (c : Char) : Bool :=
  c = ' ' || c = '\t' || c = '\n' || c = '\r' || c = '\x0b' || c = '\x0c'

/-- the character class `[\d.]` used by the profit/objective captures. -/
def isDigitDot (c : Char) : Bool := c.isDigit || c = '.'

/-- the character class `[\d:]` used by the `Avg duration` capture. -/
def isDigitColon (c : Char) : Bool := c.isDigit || c = ':'

/-- the character class `[-\d.]` used by the `Objective` capture. -/
def isDashDigitDot (c : Char) : Bool := c.isDigit || c = '.' || c = '-'

/-- the character class `[:\s]` of the loose `Max drawdown` pattern. -/
def isColonSpace (c : Char) : Bool := c = ':' || isPySpace c

/-- numeric value of a digit string, as computed by Python's `int`. -/
def digitsVal (cs : List Char) : ℕ :=
  cs.foldl (fun a c => 10 * a + (c.toNat - 48)) 0

/-- substring test on character lists; `subInList n h` is Python's `n in h`. -/
def subInList (needle : List Char) : List Char → Bool
  | [] => needle.isEmpty
  | c :: rest => needle.isPrefixOf (c :: rest) || subInList needle rest

/-- Python's `needle in hay` on strings. -/
def strContains (hay needle : String) : Bool :=
  subInList needle.toList hay.toList

/-- Python's `str.strip()` restricted to ASCII whitespace. -/
def pyStrip (s : String) : String :=
  ⟨((s.toList.dropWhile isPySpace).reverse.dropWhile isPySpace).reverse⟩

/-- Python's `float()` on the strings producible by the captures `[\d.]+`
and `[-\d.]+`: an optional leading minus sign, then digits with at most one
decimal point and at least one digit; anything else raises `ValueError`,
modelled as `none`. -/
def pyFloat (s : String) : Option ℚ :=
  let cs := s.toList
  let signed : Bool × List Char :=
    match cs with
    | '-' :: rest => (true, rest)
    | _ => (false, cs)
  let ip := signed.2.takeWhile Char.isDigit
  let rest := signed.2.dropWhile Char.isDigit
  let val : Option ℚ :=
    match rest with
    | [] => if ip.isEmpty then none else some (digitsVal ip)
    | '.' :: fr =>
      if fr.all Char.isDigit && !(ip.isEmpty && fr.isEmpty) then
        some ((digitsVal ip : ℚ) + (digitsVal fr : ℚ) / (10 : ℚ) ^ fr.length)
      else none
    | _ => none
  val.map fun v => if signed.1 then -v else v

/-- match a literal, returning the remaining characters. -/
def lit : List Char → List Char → Option (List Char)
  | [], cs => some cs
  | l :: ls, c :: cs => if c = l then lit ls cs else none
  | _ :: _, [] => none

/-- `\s*`: greedily drop whitespace (never fails). -/
def wsMany (cs : List Char) : List Char := cs.dropWhile isPySpace

/-- `\s+`: at least one whitespace character, greedy. -/
def wsSome (cs : List Char) : Option (List Char) :=
  if (cs.takeWhile isPySpace).isEmpty then none else some (cs.dropWhile isPySpace)

/-- `([c]+)` for a character class `p`: the greedy nonempty run and the rest. -/
def clsSome (p : Char → Bool) (cs : List Char) : Option (List Char × List Char) :=
  let g := cs.takeWhile p
  if g.isEmpty then none else some (g, cs.dropWhile p)

/-- `re.search`: try the matcher at every start position, leftmost first
(including the empty suffix at the end, as `re.search` does). -/
def reSearch {α : Type} (m : List Char → Option α) : List Char → Option α
  | [] => m []
  | c :: cs =>
    match m (c :: cs) with
    | some a => some a
    | none => reSearch m cs

/-- `(\d+)\s+trades` anchored at the current position. -/
def mTrades (cs : List Char) : Option ℕ := do
  let (g, r) ← clsSome Char.isDigit cs
  let r ← wsSome r
  let _ ← lit "trades".toList r
  pure (digitsVal g)

/-- `(\d+)/(\d+)/(\d+)\s+Wins/Draws/Losses` anchored at the current position. -/
def mWDL (cs : List Char) : Option (ℕ × ℕ × ℕ) := do
  let (g1, r) ← clsSome Char.isDigit cs
  let r ← lit "/".toList r
  let (g2, r) ← clsSome Char.isDigit r
  let r ← lit "/".toList r
  let (g3, r) ← clsSome Char.isDigit r
  let r ← wsSome r
  let _ ← lit "Wins/Draws/Losses".toList r
  pure (digitsVal g1, digitsVal g2, digitsVal g3)

/-- `Avg profit\s+([\d.]+)%` anchored at the current position. -/
def mAvgProfit (cs : List Char) : Option String := do
  let r ← lit "Avg profit".toList cs
  let r ← wsSome r
  let (g, r) ← clsSome isDigitDot r
  let _ ← lit "%".toList r
  pure ⟨g⟩

/-- `Median profit\s+([\d.]+)%` anchored at the current position. -/
def mMedianProfit (cs : List Char) : Option String := do
  let r ← lit "Median profit".toList cs
  let r ← wsSome r
  let (g, r) ← clsSome isDigitDot r
  let _ ← lit "%".toList r
  pure ⟨g⟩

/-- `Total profit\s+([\d.]+)\s+USDT` anchored at the current position. -/
def mTotalProfit (cs : List Char) : Option String := do
  let r ← lit "Total profit".toList cs
  let r ← wsSome r
  let (g, r) ← clsSome isDigitDot r
  let r ← wsSome r
  let _ ← lit "USDT".toList r
  pure ⟨g⟩

/-- `Total profit\s+[\d.]+\s+USDT\s+\(\s*([\d.]+)%\)` anchored at the
current position. -/
def mProfitPercent (cs : List Char) : Option String := do
  let r ← lit "Total profit".toList cs
  let r ← wsSome r
  let (_, r) ← clsSome isDigitDot r
  let r ← wsSome r
  let r ← lit "USDT".toList r
  let r ← wsSome r
  let r ← lit "(".toList r
  let r := wsMany r
  let (g, r) ← clsSome isDigitDot r
  let r ← lit "%".toList r
  let _ ← lit ")".toList r
  pure ⟨g⟩

/-- `Avg duration\s+([\d:]+)\s+min` anchored at the current position. -/
def mAvgDuration (cs : List Char) : Option String := do
  let r ← lit "Avg duration".toList cs
  let r ← wsSome r
  let (g, r) ← clsSome isDigitColon r
  let r ← wsSome r
  let _ ← lit "min".toList r
  pure ⟨g⟩

/-- `Objective:\s+([-\d.]+)` anchored at the current position. -/
def mObjective (cs : List Char) : Option String := do
  let r ← lit "Objective:".toList cs
  let r ← wsSome r
  let (g, _) ← clsSome isDashDigitDot r
  pure ⟨g⟩

/-- `(\d+)/\d+:` anchored at the current position; the group is kept as the
verbatim digit string, as `epoch_match.group(1)` is. -/
def mEpoch (cs : List Char) : Option String := do
  let (g, r) ← clsSome Char.isDigit cs
  let r ← lit "/".toList r
  let (_, r) ← clsSome Char.isDigit r
  let _ ← lit ":".toList r
  pure ⟨g⟩

/-- `Max drawdown\s*:\s*([\d.]+)\s+USDT\s*\(\s*([\d.]+)%\)` anchored at the
current position. -/
def mMaxDD1 (cs : List Char) : Option (String × String) := do
  let r ← lit "Max drawdown".toList cs
  let r := wsMany r
  let r ← lit ":".toList r
  let r := wsMany r
  let (a, r) ← clsSome isDigitDot r
  let r ← wsSome r
  let r ← lit "USDT".toList r
  let r := wsMany r
  let r ← lit "(".toList r
  let r := wsMany r
  let (p, r) ← clsSome isDigitDot r
  let r ← lit "%".toList r
  let _ ← lit ")".toList r
  pure (⟨a⟩, ⟨p⟩)

/-- `Max drawdown\s*[:\s]+([\d.]+)` anchored at the current position; since
`\s ⊆ [:\s]`, `\s*[:\s]+` is one greedy nonempty run over `[:\s]`. -/
def mMaxDD2 (cs : List Char) : Option String := do
  let r ← lit "Max drawdown".toList cs
  let (_, r) ← clsSome isColonSpace r
  let (g, _) ← clsSome isDigitDot r
  pure ⟨g⟩

/-- the metrics dictionary built by `DataHandling.parse_result_data`
(DataHandling.py:308-361), including the `max_drawdown` key that
`parse_log_file` may add afterwards; a key that was never set is `none`. -/
structure Metrics where
  total_trades : Option ℕ
  wins_draws_losses : Option String
  win_rate : Option ℚ
  avg_profit : Option ℚ
  median_profit : Option ℚ
  total_profit : Option ℚ
  profit_percent : Option ℚ
  avg_duration : Option String
  objective : Option ℚ
  max_drawdown : Option String
deriving DecidableEq

/-- the metrics dictionary with no key set. -/
def emptyMetrics : Metrics :=
  ⟨none, none, none, none, none, none, none, none, none, none⟩

/-- `float()` applied to an optional capture: no capture sets no key, a
malformed capture raises `ValueError`. -/
def floatField (g : Option String) : Except Unit (Option ℚ) :=
  match g with
  | none => .ok none
  | some s =>
    match pyFloat s with
    | some q => .ok (some q)
    | none => .error ()

/-- `DataHandling.parse_result_data` (DataHandling.py:308-361): the fixed
battery of independent, optional pattern extractions applied to the best
result line.  The `Except` error is a `ValueError` escaping from `float()`
on a degenerate capture (e.g. `"1.2.3"` from `[\d.]+`); the five `float()`
conversions are attempted in the source's order, and the searches without a
conversion are inlined into the result, as they cannot raise. -/
def parse_result_data (best_result_line : String) : Except Unit Metrics :=
  match floatField (reSearch mAvgProfit best_result_line.toList) with
  | .error e => .error e
  | .ok avg_profit =>
    match floatField (reSearch mMedianProfit best_result_line.toList) with
    | .error e => .error e
    | .ok median_profit =>
      match floatField (reSearch mTotalProfit best_result_line.toList) with
      | .error e => .error e
      | .ok total_profit =>
        match floatField (reSearch mProfitPercent best_result_line.toList) with
        | .error e => .error e
        | .ok profit_percent =>
          match floatField (reSearch mObjective best_result_line.toList) with
          | .error e => .error e
          | .ok objective =>
            .ok
              { total_trades := reSearch mTrades best_result_line.toList
                wins_draws_losses :=
                  (reSearch mWDL best_result_line.toList).map fun t =>
                    Nat.repr t.1 ++ "/" ++ Nat.repr t.2.1 ++ "/" ++ Nat.repr t.2.2
                win_rate :=
                  (reSearch mWDL best_result_line.toList).map fun t =>
                    if t.1 + t.2.1 + t.2.2 = 0 then 0
                    else (t.1 : ℚ) / ((t.1 + t.2.1 + t.2.2 : ℕ) : ℚ)
                avg_profit := avg_profit
                median_profit := median_profit
                total_profit := total_profit
                profit_percent := profit_percent
                avg_duration := reSearch mAvgDuration best_result_line.toList
                objective := objective
                max_drawdown := none }

/-- the table-row lookup of the epoch-based drawdown strategy
(DataHandling.py:220-225): the first line containing both the literal
`f"{epoch_num}/100"` and the box-drawing bar. -/
def tableRow (epoch_num : String) (lines : List String) : Option String :=
  lines.find? fun line => strContains line (epoch_num ++ "/100") && strContains line "│"

/-- the max-drawdown recovery inlined in `DataHandling.parse_log_file`
(DataHandling.py:214-248).  When the result line carries an epoch token the
table-row strategy runs (with `"--"` normalised to `"0.000 USDT (0.00%)"`);
the two whole-text patterns run only in the `else` branch, when the result
line has no epoch token. -/
def applyDrawdown (metrics : Metrics) (best_result_line : String) (lines : List String) :
    Metrics :=
  match reSearch mEpoch best_result_line.toList with
  | some epoch_num =>
    match tableRow epoch_num lines with
    | some found_line =>
      let columns := found_line.splitOn "│"
      if columns.length > 9 then
        let c0 := pyStrip (columns.getD 9 "")
        let c := if c0 = "--" then "0.000 USDT (0.00%)" else c0
        if c ≠ "" then { metrics with max_drawdown := some c } else metrics
      else metrics
    | none => metrics
  | none =>
    let content := String.intercalate "\n" lines
    match reSearch mMaxDD1 content.toList with
    | some ap => { metrics with max_drawdown := some (ap.1 ++ " USDT (" ++ ap.2 ++ "%)") }
    | none =>
      match reSearch mMaxDD2 content.toList with
      | some a => { metrics with max_drawdown := some a }
      | none => metrics

/-- the result dictionary assembled by `DataHandling.parse_log_file`
(DataHandling.py:299-306).  The `params` member is not modelled: its
construction (DataHandling.py:250-297) only reads `lines`, never raises and
never touches any other member, and no checked property mentions it. -/
structure RunResult where
  run : String
  profit : ℚ
  objective : Option ℚ
  drawdown : Option String
  metrics : Metrics
deriving DecidableEq

/-- failure modes of the extraction pipeline.  `extractionErr` is the
`RuntimeError` for a missing `Best result:` marker, `noResultErr` the
`RuntimeError` for a missing best-result data line, `noLogFile` the
`RuntimeError` for a missing `hyperopt.log`; `valueErr` is a `ValueError`
escaping from `float()` inside `parse_result_data`. -/
inductive ExtractErr where
  | noLogFile
  | extractionErr
  | noResultErr
  | valueErr
deriving DecidableEq

/-- the best-result data line selected by `DataHandling.parse_log_file`
(DataHandling.py:200-206): exactly two lines after the first line containing
the `Best result:` marker, provided that index exists. -/
def bestResultLine (lines : List String) : Option String :=
  match lines.findIdx? (fun line => strContains line "Best result:") with
  | some i => if i + 2 < lines.length then some (lines.getD (i + 2) "") else none
  | none => none

/-- `DataHandling.parse_log_file` (DataHandling.py:192-306) restricted to
the members the checked properties mention (see `RunResult`).  Python's
`if not best_result_line` treats both `None` and the empty string as
missing, so both raise the no-result `RuntimeError`. -/
def parse_log_file (lines : List String) (run_name : String) : Except ExtractErr RunResult :=
  match bestResultLine lines with
  | none => .error .noResultErr
  | some best_result_line =>
    if best_result_line = "" then .error .noResultErr
    else
      match parse_result_data best_result_line with
      | .error _ => .error .valueErr
      | .ok m =>
        let metrics := applyDrawdown m best_result_line lines
        .ok
          { run := run_name
            profit := metrics.total_profit.getD 0
            objective := metrics.objective
            drawdown := metrics.max_drawdown
            metrics := metrics }

/-- `"Best result:" in content`: since the marker contains no newline, the
whole-text containment test equals a per-line containment test. -/
def hasBestMarker (lines : List String) : Bool :=
  lines.any fun line => strContains line "Best result:"

/-- `DataHandling.extract_data` (DataHandling.py:168-187): `none` stands for
a run directory without `hyperopt.log`. -/
def extract_data (run_name : String) (log : Option (List String)) :
    Except ExtractErr RunResult :=
  match log with
  | none => .error .noLogFile
  | some lines =>
    if hasBestMarker lines then parse_log_file lines run_name
    else .error .extractionErr

/-- ranking key of a stored result: `x.get("objective", float("inf"))`
(DataHandling.py:136-144); a missing objective is `+infinity`, i.e. `⊤`. -/
def objKey (r : RunResult) : WithTop ℚ :=
  match r.objective with
  | some q => (q : WithTop ℚ)
  | none => ⊤

/-- the comparison `top_results.sort(key=...)` sorts by. -/
def objLE (a b : RunResult) : Prop := objKey a ≤ objKey b

instance : DecidableRel objLE := fun a b => inferInstanceAs (Decidable (objKey a ≤ objKey b))

instance : IsTotal RunResult objLE := ⟨fun a b => le_total (objKey a) (objKey b)⟩

instance : IsTrans RunResult objLE := ⟨fun _ _ _ h h' => le_trans h h'⟩

/-- Python's stable ascending sort by `objective` (DataHandling.py:144);
insertion sort with a total preorder key is stable, so it computes the same
list as `list.sort(key=...)`. -/
def sortByObj (l : List RunResult) : List RunResult :=
  List.insertionSort objLE l

/-- one step of Python's `max` with a key function: the running maximum is
replaced only when the new key is strictly greater, so ties keep the
earlier element. -/
def pyMaxStep : Option RunResult → RunResult → Option RunResult
  | none, x => some x
  | some m, x => if objKey x > objKey m then some x else some m

/-- Python's `max(top_results, key=...)` (DataHandling.py:136): the first
element with the maximal key, `none` on an empty list (where `max` raises
`ValueError: max() arg is an empty sequence`). -/
def pyMax (l : List RunResult) : Option RunResult :=
  l.foldl pyMaxStep none

/-- `DataHandling.update_top_results` (DataHandling.py:126-145).  `none`
models the `ValueError` raised by `max` on an empty board (reachable only
with `top_n = 0`); `list.remove` removes the first element equal to the
worst one, which is `List.erase`. -/
def update_top_results (top_results : List RunResult) (new_result : RunResult)
    (top_n : ℕ) : Option (List RunResult) :=
  if top_results.length < top_n then
    some (sortByObj (top_results ++ [new_result]))
  else
    match pyMax top_results with
    | none => none
    | some worst_result =>
      if objKey new_result < objKey worst_result then
        some (sortByObj ((top_results.erase worst_result) ++ [new_result]))
      else
        some (sortByObj top_results)

/-- one entry of `failed_runs` (DataHandling.py:152-157). -/
structure FailureRecord where
  run_id : ℕ
  timestamp : String
  error : String
  error_type : String
deriving DecidableEq

/-- the in-memory `self.data` dictionary of `DataHandling`, with its two
keys `top_results` and `failed_runs`. -/
structure DataStore where
  top_results : List RunResult
  failed_runs : List FailureRecord
deriving DecidableEq

/-- the fresh state created by `load_data` when nothing usable is on disk
(DataHandling.py:113-116). -/
def fresh_data : DataStore := ⟨[], []⟩

/-- `DataHandling.add_result` (DataHandling.py:118-124): replace
`top_results` by the updated board.  `save_data` only writes the state to
disk (and merely warns on failure), so it changes no in-memory state and is
not modelled; `none` propagates the `ValueError` of `update_top_results`. -/
def add_result (data : DataStore) (result : RunResult) (top_n : ℕ) : Option DataStore :=
  (update_top_results data.top_results result top_n).map fun tr =>
    { data with top_results := tr }

/-- `DataHandling.record_failure` (DataHandling.py:147-159): append one
failure record built from the run id, `datetime.now().isoformat()` (passed
in as `now`), `str(error)` and `type(error).__name__`. -/
def record_failure (data : DataStore) (run_id : ℕ) (now error error_type : String) :
    DataStore :=
  { data with failed_runs := data.failed_runs ++ [⟨run_id, now, error, error_type⟩] }

/-- the persisted `top_results.json` as seen by `load_data`: it is missing,
or exists but `json.loads` fails on its text, or decodes to a state.  This
abstracts `Path.read_text` plus `json.loads` (DataHandling.py:107-111). -/
inductive StoredFile where
  | missing
  | malformed (raw : String)
  | good (st : DataStore)

/-- `DataHandling.load_data` (DataHandling.py:105-116): the decoded state
when the file exists and parses, a fresh empty state otherwise. -/
def load_data : StoredFile → DataStore
  | .good st => st
  | .missing => fresh_data
  | .malformed _ => fresh_data

/-- `DataHandling.clean_data_file` (DataHandling.py:43-50): unconditionally
remove the results file ("for clean start"); afterwards it is missing. -/
def clean_data_file (_ : StoredFile) : StoredFile := .missing

/-- `DataHandling.__init__` (DataHandling.py:22-38): first
`clean_data_file()` deletes the persisted file, then `load_data()` reads
what is left (`clear_old_results` touches only the results directory, never
the data file). -/
def init_data (file : StoredFile) : DataStore :=
  load_data (clean_data_file file)

/-- outcome of one probe of the strategy JSON artifact inside the retry
loop of `HyperLoop.wait_for_hyperopt_completion` (HyperLoop.py:148-168):
the file does not exist, or opening/reading it raises `OSError`, or the
`read(1)` call succeeds and the file holds `content`. -/
inductive ReadOutcome where
  | absent
  | osError
  | readOk (content : String)

/-- result of one pass of the three-attempt artifact check: completion is
declared, or the found-but-unreadable `RuntimeError` is raised, or control
falls through to the process-liveness check and keeps waiting. -/
inductive ScanResult where
  | completed
  | unreadableErr
  | keepWaiting
deriving DecidableEq

/-- the `for attempt in range(max_retries)` body of
`wait_for_hyperopt_completion` (HyperLoop.py:149-168), over the list of
remaining attempt indices: a successful `read(1)` returns immediately (its
result is never inspected), an `OSError` on the last attempt raises the
unreadable `RuntimeError`, and an absent file just moves to the next
attempt. -/
def artifactScanAux (probe : ℕ → ReadOutcome) : List ℕ → ScanResult
  | [] => .keepWaiting
  | a :: rest =>
    match probe a with
    | .absent => artifactScanAux probe rest
    | .readOk _ => .completed
    | .osError => if rest.isEmpty then .unreadableErr else artifactScanAux probe rest

/-- one full pass of the inner retry loop with `max_retries = 3`. -/
def artifactScan (probe : ℕ → ReadOutcome) : ScanResult :=
  artifactScanAux probe [0, 1, 2]

/-- Python exception classes distinguished by `HyperLoop.run_loop`'s
handlers: only `RuntimeError` is caught around extraction and ranking
(HyperLoop.py:342). -/
inductive PyExc where
  | runtimeError
  | valueError
  | typeError
  | attributeError
deriving DecidableEq

/-- what one iteration of the campaign loop observes about its run:
`run_single` returned `None` after recording the failure `rec` internally
(HyperLoop.py:268-290), or it returned a run directory named `run_name`
whose `hyperopt.log` holds `log` (`none` when the log file is missing). -/
inductive RunOutcome where
  | failed (rec : FailureRecord)
  | completed (run_name : String) (log : Option (List String))

/-- one iteration of `HyperLoop.run_loop` (HyperLoop.py:302-344) over the
state `(data, successful_runs)`:

* a failed `run_single` leaves the board alone (its `record_failure`
  already happened inside `handle_hyperopt_failure`) and continues;
* a `RuntimeError` from `extract_data` is caught, prints and writes the
  `FAILED` marker (filesystem only — note: no `record_failure`), continues;
* a `ValueError` escaping `extract_data` is not a `RuntimeError`: it
  propagates and aborts the campaign;
* on success, `print(f"Objective   : {result['objective']:.2f}")`
  (HyperLoop.py:324) raises `TypeError` when the objective is `None`;
* otherwise `add_result` runs, and then
  `DataHandling.copy_hyperopt_results(...)` (HyperLoop.py:340) is called —
  that method is defined nowhere in the repository, so Python raises
  `AttributeError`, which `except RuntimeError` does not catch. -/
def run_loop_step (top_n : ℕ) (st : DataStore × ℕ) (outcome : RunOutcome) :
    Except PyExc (DataStore × ℕ) :=
  match outcome with
  | .failed rec =>
    .ok (record_failure st.1 rec.run_id rec.timestamp rec.error rec.error_type, st.2)
  | .completed run_name log =>
    match extract_data run_name log with
    | .error .valueErr => .error .valueError
    | .error _ => .ok st
    | .ok result =>
      let st := (st.1, st.2 + 1)
      match result.objective with
      | none => .error .typeError
      | some _ =>
        match add_result st.1 result top_n with
        | none => .error .valueError
        | some _ => .error .attributeError

/-- `HyperLoop.run_loop` (HyperLoop.py:295-361): iterate runs `1..num_runs`
in order over an environment describing each attempt's outcome, starting
from the board state left by `__init__`; an uncaught exception aborts the
whole campaign. -/
def run_loop (env : ℕ → RunOutcome) (num_runs top_n : ℕ) (data : DataStore) :
    Except PyExc (DataStore × ℕ) :=
  (List.range' 1 num_runs).foldlM (fun st i => run_loop_step top_n st (env i)) (data, 0)

/-- a whole campaign's worth of admissions: fold `update_top_results` over
the sequence of extracted results, starting from the empty board that
`DataHandling.__init__` always produces; `none` propagates a raised
`ValueError`. -/
def admitAll (results : List RunResult) (top_n : ℕ) : Option (List RunResult) :=
  results.foldlM (fun board r => update_top_results board r top_n) []

section LeaderBoardLemmas

lemma sortByObj_perm (l : List RunResult) : List.Perm (sortByObj l) l :=
  List.perm_insertionSort objLE l

lemma sortByObj_sorted (l : List RunResult) : (sortByObj l).Sorted objLE :=
  List.sorted_insertionSort objLE l

lemma sortByObj_length (l : List RunResult) : (sortByObj l).length = l.length :=
  (sortByObj_perm l).length_eq

lemma pyMaxStep_eq_some {acc : Option RunResult} {x w : RunResult}
    (h : pyMaxStep acc x = some w) : acc = some w ∨ w = x := by
  cases acc with
  | none =>
    right
    injection h with h
    exact h.symm
  | some m =>
    rw [pyMaxStep] at h
    split at h
    · right
      injection h with h
      exact h.symm
    · left
      exact h

lemma foldl_pyMaxStep_mem :
    ∀ (l : List RunResult) (acc : Option RunResult) (w : RunResult),
      l.foldl pyMaxStep acc = some w → acc = some w ∨ w ∈ l := by
  intro l
  induction l with
  | nil => exact fun acc w h => .inl h
  | cons x xs ih =>
    intro acc w h
    rw [List.foldl_cons] at h
    rcases ih _ _ h with h' | h'
    · rcases pyMaxStep_eq_some h' with h'' | h''
      · exact .inl h''
      · exact .inr (h'' ▸ List.mem_cons_self x xs)
    · exact .inr (List.mem_cons_of_mem x h')

lemma pyMax_mem {l : List RunResult} {w : RunResult} (h : pyMax l = some w) : w ∈ l := by
  rcases foldl_pyMaxStep_mem l none w h with h' | h'
  · cases h'
  · exact h'

lemma foldl_pyMaxStep_isSome :
    ∀ (xs : List RunResult) (m : RunResult), (xs.foldl pyMaxStep (some m)).isSome := by
  intro xs
  induction xs with
  | nil => exact fun _ => rfl
  | cons x xs ih =>
    intro m
    rw [List.foldl_cons, pyMaxStep]
    split
    · exact ih x
    · exact ih m

lemma pyMax_isSome {l : List RunResult} (h : l ≠ []) : (pyMax l).isSome := by
  cases l with
  | nil => exact absurd rfl h
  | cons x xs => exact foldl_pyMaxStep_isSome xs x

/-- one admission preserves the capacity bound and always leaves the board
sorted (the sortedness of the input board is not even needed). -/
lemma update_preserves {board : List RunResult} {new : RunResult} {top_n : ℕ}
    {board' : List RunResult} (hlen : board.length ≤ top_n)
    (h : update_top_results board new top_n = some board') :
    board'.length ≤ top_n ∧ board'.Sorted objLE := by
  rw [update_top_results] at h
  split at h
  · injection h with h
    subst h
    refine ⟨?_, sortByObj_sorted _⟩
    rw [sortByObj_length, List.length_append, List.length_singleton]
    omega
  · rename_i hge
    split at h
    · cases h
    · rename_i worst heq
      have hmem := pyMax_mem heq
      have hpos : 1 ≤ board.length := List.length_pos.mpr (List.ne_nil_of_mem hmem)
      split at h
      · injection h with h
        subst h
        refine ⟨?_, sortByObj_sorted _⟩
        rw [sortByObj_length, List.length_append, List.length_singleton,
          List.length_erase_of_mem hmem]
        omega
      · injection h with h
        subst h
        exact ⟨by rw [sortByObj_length]; omega, sortByObj_sorted _⟩

lemma admitAll_inv (results : List RunResult) (top_n : ℕ) :
    ∀ (start board : List RunResult), start.length ≤ top_n → start.Sorted objLE →
      results.foldlM (fun b r => update_top_results b r top_n) start = some board →
      board.length ≤ top_n ∧ board.Sorted objLE := by
  induction results with
  | nil =>
    intro start board h1 h2 h
    injection h with h
    subst h
    exact ⟨h1, h2⟩
  | cons r rs ih =>
    intro start board h1 _ h
    rw [List.foldlM_cons] at h
    cases hstep : update_top_results start r top_n with
    | none => rw [hstep] at h; cases h
    | some b1 =>
      rw [hstep] at h
      have hb1 := update_preserves h1 hstep
      exact ih b1 board hb1.1 hb1.2 h

end LeaderBoardLemmas

/-- a concrete result with objective `5`. -/
def resA : RunResult := ⟨"run_001", 0, some 5, none, emptyMetrics⟩

/-- a concrete result with objective `3`. -/
def resB : RunResult := ⟨"run_002", 0, some 3, none, emptyMetrics⟩

/-- a concrete result with no objective (ranked as `+infinity`). -/
def resC : RunResult := ⟨"run_003", 0, none, none, emptyMetrics⟩

/-- C1: for every sequence of results admitted via
`add_result`/`update_top_results` with capacity `top_n`, the resulting
`top_results` board never exceeds `top_n` entries and is sorted ascending by
objective (a missing objective ordered as `+infinity`) after every
admission — every prefix of a campaign is itself such a sequence, so this
statement covers the board after each intermediate admission as well. -/
theorem top_results_bounded_sorted (results : List RunResult) (top_n : ℕ)
    (board : List RunResult) (h : admitAll results top_n = some board) :
    board.length ≤ top_n ∧ board.Sorted objLE :=
  admitAll_inv results top_n [] board (by simp) (by simp) h

/-- C1 witness: three admissions into a capacity-2 board leave `[resB, resA]`
(objectives `3 ≤ 5`), which the theorem certifies bounded and sorted. -/
theorem top_results_bounded_sorted_witness :
    ([resB, resA] : List RunResult).length ≤ 2 ∧
      ([resB, resA] : List RunResult).Sorted objLE :=
  top_results_bounded_sorted [resA, resB, resC] 2 [resB, resA] (by decide)

/-- C2: `update_top_results` admits a candidate iff the board holds fewer
than `top_n` entries or the candidate's objective (missing treated as
`+infinity`) is strictly lower than the worst entry's; below capacity the
new board is the old one plus the candidate, at capacity with a strictly
better candidate exactly the worst entry (`pyMax`, `max`'s first maximum) is
evicted and the candidate inserted, and otherwise the entries are unchanged
— each case stated up to permutation, since the final sort only reorders. -/
theorem update_top_results_admission (board : List RunResult) (new : RunResult)
    (top_n : ℕ) :
    (board.length < top_n →
      ∃ board', update_top_results board new top_n = some board' ∧
        List.Perm board' (board ++ [new])) ∧
    (¬ board.length < top_n →
      ∀ worst, pyMax board = some worst →
        (objKey new < objKey worst →
          ∃ board', update_top_results board new top_n = some board' ∧
            List.Perm board' (board.erase worst ++ [new])) ∧
        (¬ objKey new < objKey worst →
          ∃ board', update_top_results board new top_n = some board' ∧
            List.Perm board' board)) := by
  refine ⟨fun hlt => ?_, fun hge worst hmax => ⟨fun hbetter => ?_, fun hworse => ?_⟩⟩
  · exact ⟨sortByObj (board ++ [new]),
      by rw [update_top_results, if_pos hlt], sortByObj_perm _⟩
  · refine ⟨sortByObj (board.erase worst ++ [new]), ?_, sortByObj_perm _⟩
    rw [update_top_results, if_neg hge, hmax]
    exact if_pos hbetter
  · refine ⟨sortByObj board, ?_, sortByObj_perm _⟩
    rw [update_top_results, if_neg hge, hmax]
    exact if_neg hworse

/-- C2 witness: at capacity 1 the better candidate `resB` (objective 3)
evicts the worst entry `resA` (objective 5). -/
theorem update_top_results_admission_witness :
    ∃ board', update_top_results [resA] resB 1 = some board' ∧
      List.Perm board' (([resA] : List RunResult).erase resA ++ [resB]) :=
  (((update_top_results_admission [resA] resB 1).2 (by decide) resA (by decide)).1)
    (by decide)

/-- C9: with capacity at least 1 and a board within capacity,
`update_top_results` returns without raising — `max` over the existing
entries is only reached when the board is non-empty, so the
empty-sequence `ValueError` branch is unreachable. -/
theorem update_top_results_no_raise (board : List RunResult) (new : RunResult)
    (top_n : ℕ) (h1 : 1 ≤ top_n) (h2 : board.length ≤ top_n) :
    (update_top_results board new top_n).isSome = true := by
  rw [update_top_results]
  split
  · rfl
  · rename_i hge
    have hne : board ≠ [] := by
      intro he
      subst he
      simp only [List.length_nil] at hge
      omega
    split
    · rename_i heq
      have hs := pyMax_isSome hne
      rw [heq] at hs
      cases hs
    · split <;> rfl

/-- C9 witness: at `top_n = 1` on an empty board the call succeeds. -/
theorem update_top_results_no_raise_witness :
    (update_top_results [] resA 1).isSome = true :=
  update_top_results_no_raise [] resA 1 (by decide) (by decide)

/-- C10: the two leaderboard mutators are frame-disjoint — `record_failure`
appends exactly one `FailureRecord` to `failed_runs` and leaves
`top_results` unchanged, and `add_result` replaces `top_results` with the
updated board and leaves `failed_runs` unchanged (whenever it returns). -/
theorem mutators_frame_disjoint (data : DataStore) (run_id : ℕ)
    (now err et : String) (result : RunResult) (top_n : ℕ) :
    ((record_failure data run_id now err et).top_results = data.top_results ∧
      (record_failure data run_id now err et).failed_runs =
        data.failed_runs ++ [⟨run_id, now, err, et⟩]) ∧
    ((add_result data result top_n).map DataStore.failed_runs =
        (update_top_results data.top_results result top_n).map
          (fun _ => data.failed_runs) ∧
      (add_result data result top_n).map DataStore.top_results =
        update_top_results data.top_results result top_n) := by
  refine ⟨⟨rfl, rfl⟩, ?_, ?_⟩ <;>
    · rw [add_result]
      cases update_top_results data.top_results result top_n <;> rfl

/-- the persisted state used in the C3 counterexample: one stored result. -/
def persistedExample : DataStore := ⟨[resA], []⟩

/-- C3 counterexample: a present and parseable state file holding one result
is not reloaded at process start — `__init__` deletes it via
`clean_data_file` before `load_data` runs, so the process starts from the
fresh empty state instead of the persisted one. -/
theorem load_at_start_counterexample :
    init_data (.good persistedExample) ≠ persistedExample := by decide

/-- C3 amended: `load_data` on its own behaves as claimed — a present and
parseable file is fully decoded, and a missing or undecodable file yields
the fresh empty state `{top_results: [], failed_runs: []}` — but at process
start `__init__` first deletes the file (`clean_data_file`, "for clean
start"), so the state actually loaded at startup is always the fresh empty
state, never the persisted one. -/
theorem load_data_fresh_on_start :
    (∀ st, load_data (.good st) = st) ∧
    load_data .missing = fresh_data ∧
    (∀ raw, load_data (.malformed raw) = fresh_data) ∧
    (∀ file, init_data file = fresh_data) :=
  ⟨fun _ => rfl, rfl, fun _ => rfl, fun _ => rfl⟩

section ExtractionLemmas

lemma parse_log_file_ne_extractionErr (lines : List String) (name : String) :
    parse_log_file lines name ≠ .error .extractionErr := by
  rw [parse_log_file]
  split
  · decide
  · split
    · decide
    · split
      · decide
      · exact fun h => Except.noConfusion h

lemma parse_log_file_noResult_iff (lines : List String) (name : String) :
    parse_log_file lines name = .error .noResultErr ↔
      bestResultLine lines = none ∨ bestResultLine lines = some "" := by
  rw [parse_log_file]
  split
  · rename_i heq
    simp [heq]
  · rename_i line heq
    split
    · rename_i he
      subst he
      simp [heq]
    · rename_i hne
      constructor
      · intro h
        exfalso
        revert h
        split
        · exact fun h => by cases h
        · exact fun h => Except.noConfusion h
      · intro h
        rcases h with h | h
        · rw [heq] at h
          cases h
        · rw [heq] at h
          injection h with h
          exact absurd h hne

end ExtractionLemmas

/-- C4: `extract_data` fails with the missing-marker `RuntimeError`
(spec: `ExtractionError`) exactly when the log text contains no
`Best result:` completion marker; when the marker is present it fails with
the distinct missing-data-line `RuntimeError` (spec: `NoResultError`)
exactly when the result line — the line two positions after the marker
line, skipping the blank separator — does not exist or is blank; and the
selected result line is indeed `lines[i + 2]` for the first marker index
`i`. -/
theorem extract_error_conditions (run_name : String) (lines : List String) :
    (extract_data run_name (some lines) = .error .extractionErr ↔
      hasBestMarker lines = false) ∧
    (hasBestMarker lines = true →
      (extract_data run_name (some lines) = .error .noResultErr ↔
        bestResultLine lines = none ∨ bestResultLine lines = some "")) ∧
    (∀ i, lines.findIdx? (fun line => strContains line "Best result:") = some i →
      i + 2 < lines.length → bestResultLine lines = some (lines.getD (i + 2) "")) := by
  refine ⟨?_, fun hm => ?_, fun i hi hlt => ?_⟩
  · cases hmk : hasBestMarker lines with
    | false => simp [extract_data, hmk]
    | true => simp [extract_data, hmk, parse_log_file_ne_extractionErr]
  · rw [extract_data, if_pos hm]
    exact parse_log_file_noResult_iff lines run_name
  · rw [bestResultLine, hi]
    exact if_pos hlt

/-- C4 witness: a log consisting of the marker line alone has no line two
below it, and extraction fails with the no-result error. -/
theorem extract_error_conditions_witness :
    extract_data "r" (some ["Best result:"]) = .error .noResultErr ↔
      bestResultLine ["Best result:"] = none ∨
        bestResultLine ["Best result:"] = some "" :=
  (extract_error_conditions "r" ["Best result:"]).2.1 (by decide)

/-- the canonical best-result line of the spec's example. -/
def exampleLine : String :=
  "150 trades. 80/10/60 Wins/Draws/Losses. Avg profit 2.35%. Total profit 123.45 USDT (12.3%). Objective: -1.234"

/-- a line containing every fragment of the spec's example as a substring,
but with an earlier `"1 trades"` occurrence. -/
def dupLine : String :=
  "1 trades 150 trades 80/10/60 Wins/Draws/Losses Avg profit 2.35% Total profit 123.45 USDT (12.3%) Objective: -1.234"

/-- C7 counterexample: `dupLine` contains all five quoted fragments
(`"150 trades"` included), yet `parse_result_data` reports
`total_trades = 1`, not `150` — `re.search` takes the leftmost match, so a
universal claim over all lines merely containing the fragments fails. -/
theorem parse_result_leftmost_counterexample :
    strContains dupLine "150 trades" = true ∧
    strContains dupLine "80/10/60 Wins/Draws/Losses" = true ∧
    strContains dupLine "Avg profit 2.35%" = true ∧
    strContains dupLine "Total profit 123.45 USDT (12.3%)" = true ∧
    strContains dupLine "Objective: -1.234" = true ∧
    (parse_result_data dupLine).map Metrics.total_trades = .ok (some 1) := by
  decide

unseal Rat.mul Rat.add Rat.sub Rat.inv Rat.ofScientific in
/-- C7 amended: for a result line on which the quoted fragments are the
leftmost matches of their patterns — such as the canonical `exampleLine` —
`parse_result_data` yields `total_trades = 150`,
`win_rate = 80/150`, `avg_profit = 2.35`, `total_profit = 123.45` and
`objective = -1.234`; in general, whenever parsing succeeds, `win_rate` is
`wins/(wins+draws+losses)` from the matched triple (`0` when that total is
`0`, absent when the triple does not match), and the absence of any
individual field is not an error (the empty line parses to the empty
metrics).  The Batteries rational primitives are unsealed locally so that
the concrete arithmetic can be checked by evaluation. -/
theorem parse_result_example_win_rate :
    parse_result_data exampleLine = .ok
      { total_trades := some 150
        wins_draws_losses := some "80/10/60"
        win_rate := some (80 / 150 : ℚ)
        avg_profit := some (2.35 : ℚ)
        median_profit := none
        total_profit := some (123.45 : ℚ)
        profit_percent := some (12.3 : ℚ)
        avg_duration := none
        objective := some (-1.234 : ℚ)
        max_drawdown := none } ∧
    (∀ line m, parse_result_data line = .ok m →
      m.win_rate = (reSearch mWDL line.toList).map fun t =>
        if t.1 + t.2.1 + t.2.2 = 0 then 0
        else (t.1 : ℚ) / ((t.1 + t.2.1 + t.2.2 : ℕ) : ℚ)) ∧
    parse_result_data "" = .ok emptyMetrics := by
  refine ⟨by decide, ?_, by decide⟩
  intro line m h
  rw [parse_result_data] at h
  split at h
  · exact Except.noConfusion h
  · split at h
    · exact Except.noConfusion h
    · split at h
      · exact Except.noConfusion h
      · split at h
        · exact Except.noConfusion h
        · split at h
          · exact Except.noConfusion h
          · injection h with h
            subst h
            rfl

/-- C7 witness: the general `win_rate` clause applied to the empty line. -/
theorem parse_result_example_win_rate_witness :
    emptyMetrics.win_rate = (reSearch mWDL ("" : String).toList).map (fun t =>
      if t.1 + t.2.1 + t.2.2 = 0 then 0
      else (t.1 : ℚ) / ((t.1 + t.2.1 + t.2.2 : ℕ) : ℚ)) :=
  parse_result_example_win_rate.2.1 "" emptyMetrics (by decide)

/-- the C5 counterexample log: the result line carries the epoch token
`69/100:`, no table row exists, and the text elsewhere matches the strict
`Max drawdown:` pattern. -/
def epochNoRowLog : List String :=
  ["Best result:", "", "  69/100:    150 trades. Objective: -1.234",
   "Max drawdown: 5.000 USDT (1.00%)"]

/-- C5 counterexample: the strict whole-text pattern (strategy (b))
succeeds on this log, yet extraction leaves the drawdown unset — because
the result line carries an epoch token, only the table-row strategy (a) is
attempted, and strategies (b)/(c) are never tried; the three strategies are
not sequential fallbacks. -/
theorem drawdown_fallback_counterexample :
    (reSearch mMaxDD1 (String.intercalate "\n" epochNoRowLog).toList).isSome = true ∧
    (extract_data "run_001" (some epochNoRowLog)).map RunResult.drawdown = .ok none := by
  decide

/-- C5 amended: when the result line contains an epoch token, only the
epoch-tagged table-row strategy runs — a missing table row leaves the
drawdown unset even when the whole-text patterns would match — with the
`"--"` placeholder normalised to `"0.000 USDT (0.00%)"`; the strict
`Max drawdown:` pattern and then the looser one are tried, first success
winning, only when the result line has no epoch token; and when the
applicable strategies all fail, the drawdown field is left unset. -/
theorem applyDrawdown_branches (m : Metrics) (line : String) (lines : List String) :
    (∀ e, reSearch mEpoch line.toList = some e →
      (tableRow e lines = none → applyDrawdown m line lines = m) ∧
      (∀ row, tableRow e lines = some row →
        (row.splitOn "│").length > 9 →
        pyStrip ((row.splitOn "│").getD 9 "") = "--" →
        applyDrawdown m line lines =
          { m with max_drawdown := some "0.000 USDT (0.00%)" })) ∧
    (reSearch mEpoch line.toList = none →
      (∀ a p,
        reSearch mMaxDD1 (String.intercalate "\n" lines).toList = some (a, p) →
        applyDrawdown m line lines =
          { m with max_drawdown := some (a ++ " USDT (" ++ p ++ "%)") }) ∧
      (reSearch mMaxDD1 (String.intercalate "\n" lines).toList = none →
        (∀ a, reSearch mMaxDD2 (String.intercalate "\n" lines).toList = some a →
          applyDrawdown m line lines = { m with max_drawdown := some a }) ∧
        (reSearch mMaxDD2 (String.intercalate "\n" lines).toList = none →
          applyDrawdown m line lines = m))) := by
  constructor
  · intro e he
    constructor
    · intro ht
      simp only [applyDrawdown, he, ht]
    · intro row hrow hlen hdash
      simp only [applyDrawdown, he, hrow, if_pos hlen, hdash]
      simp
  · intro hne
    refine ⟨fun a p hp => ?_, fun hno1 => ⟨fun a ha => ?_, fun hno2 => ?_⟩⟩
    · simp only [applyDrawdown, hne, hp]
    · simp only [applyDrawdown, hne, hno1, ha]
    · simp only [applyDrawdown, hne, hno1, hno2]

/-- C5 witness: with no epoch token in the result line, the strict
whole-text pattern sets the drawdown from its two captures. -/
theorem applyDrawdown_branches_witness :
    applyDrawdown emptyMetrics "x" ["Max drawdown: 5.000 USDT (1.00%)"] =
      { emptyMetrics with
        max_drawdown := some ("5.000" ++ " USDT (" ++ "1.00" ++ "%)") } :=
  ((applyDrawdown_branches emptyMetrics "x"
    ["Max drawdown: 5.000 USDT (1.00%)"]).2 (by decide)).1 "5.000" "1.00" (by decide)

/-- a log whose extraction fully succeeds: marker, blank separator, and a
well-formed result line with an objective. -/
def goodLog : List String :=
  ["Best result:", "",
   "   1/100:    150 trades. 80/10/60 Wins/Draws/Losses. Avg profit 2.35%. Total profit 123.45 USDT (12.3%). Objective: -1.234"]

/-- C6 (code defect): a campaign of one run whose log parses successfully
does not advance past the attempt — after admitting the result,
`run_loop` calls `DataHandling.copy_hyperopt_results` (HyperLoop.py:340),
a method defined nowhere in the repository, so Python raises
`AttributeError`, which the surrounding `except RuntimeError`
(HyperLoop.py:342) does not catch; the exception escapes and aborts the
whole campaign instead of the loop advancing to the next `run_id`. -/
theorem run_loop_aborts_on_first_success :
    run_loop (fun _ => .completed "run_001" (some goodLog)) 1 10 fresh_data =
      .error .attributeError := by
  decide

/-- C8 counterexample: an artifact that exists and opens but holds zero
bytes still makes the watcher declare completion on the first probe —
`f.read(1)` on an empty file returns the empty string without raising, and
its result is never inspected, so completion does not require at least one
byte of content. -/
theorem artifact_empty_completion_counterexample :
    artifactScan (fun _ => .readOk "") = .completed ∧ ("" : String).length = 0 := by
  decide

/-- C8 amended: on finding the artifact the watcher declares completion as
soon as the file can be opened and the one-byte read call succeeds, even
when it yields zero bytes (an empty file); a found-but-unreadable artifact
(`OSError` on open/read) is retried up to the bounded `max_retries = 3`
attempts and then causes the failure reporting the artifact as unreadable;
and completion is declared only after a successful open-and-read of the
artifact on one of those attempts. -/
theorem artifactScan_behavior :
    (∀ probe c, probe 0 = .readOk c → artifactScan probe = .completed) ∧
    (∀ probe, probe 0 = .osError → probe 1 = .osError → probe 2 = .osError →
      artifactScan probe = .unreadableErr) ∧
    (∀ probe, artifactScan probe = .completed →
      ∃ a, a < 3 ∧ ∃ c, probe a = .readOk c) := by
  refine ⟨fun probe c h => ?_, fun probe h0 h1 h2 => ?_, fun probe hc => ?_⟩
  · simp [artifactScan, artifactScanAux, h]
  · simp [artifactScan, artifactScanAux, h0, h1, h2]
  · cases hp0 : probe 0 with
    | readOk c => exact ⟨0, by omega, c, hp0⟩
    | absent =>
      cases hp1 : probe 1 with
      | readOk c => exact ⟨1, by omega, c, hp1⟩
      | absent =>
        cases hp2 : probe 2 with
        | readOk c => exact ⟨2, by omega, c, hp2⟩
        | absent =>
          rw [artifactScan, artifactScanAux, hp0, artifactScanAux, hp1,
            artifactScanAux, hp2, artifactScanAux] at hc
          cases hc
        | osError =>
          rw [artifactScan, artifactScanAux, hp0, artifactScanAux, hp1,
            artifactScanAux, hp2] at hc
          cases hc
      | osError =>
        cases hp2 : probe 2 with
        | readOk c => exact ⟨2, by omega, c, hp2⟩
        | absent =>
          rw [artifactScan, artifactScanAux, hp0, artifactScanAux, hp1] at hc
          simp only [List.isEmpty_cons] at hc
          rw [artifactScanAux, hp2, artifactScanAux] at hc
          cases hc
        | osError =>
          rw [artifactScan, artifactScanAux, hp0, artifactScanAux, hp1] at hc
          simp only [List.isEmpty_cons] at hc
          rw [artifactScanAux, hp2] at hc
          simp only [List.isEmpty_nil, if_pos] at hc
          cases hc
    | osError =>
      cases hp1 : probe 1 with
      | readOk c => exact ⟨1, by omega, c, hp1⟩
      | absent =>
        cases hp2 : probe 2 with
        | readOk c => exact ⟨2, by omega, c, hp2⟩
        | absent =>
          rw [artifactScan, artifactScanAux, hp0] at hc
          simp only [List.isEmpty_cons] at hc
          rw [artifactScanAux, hp1, artifactScanAux, hp2, artifactScanAux] at hc
          cases hc
        | osError =>
          rw [artifactScan, artifactScanAux, hp0] at hc
          simp only [List.isEmpty_cons] at hc
          rw [artifactScanAux, hp1, artifactScanAux, hp2] at hc
          simp only [List.isEmpty_nil, if_pos] at hc
          cases hc
      | osError =>
        cases hp2 : probe 2 with
        | readOk c => exact ⟨2, by omega, c, hp2⟩
        | absent =>
          rw [artifactScan, artifactScanAux, hp0] at hc
          simp only [List.isEmpty_cons] at hc
          rw [artifactScanAux, hp1] at hc
          simp only [List.isEmpty_cons] at hc
          rw [artifactScanAux, hp2, artifactScanAux] at hc
          cases hc
        | osError =>
          rw [artifactScan, artifactScanAux, hp0] at hc
          simp only [List.isEmpty_cons] at hc
          rw [artifactScanAux, hp1] at hc
          simp only [List.isEmpty_cons] at hc
          rw [artifactScanAux, hp2] at hc
          simp only [List.isEmpty_nil, if_pos] at hc
          cases hc

/-- C8 witness: a readable non-empty artifact completes on the first
probe. -/
theorem artifactScan_behavior_witness :
    artifactScan (fun _ => .readOk "x") = .completed :=
  artifactScan_behavior.1 (fun _ => .readOk "x") "x" rfl

end HyperLoop
